import Mathlib

/-!
Verification of the DigitalMarketPro settlement core.

This file gives a shallow embedding of the transaction-settlement core of
the repository: the shared data model (`shared/schema`), the in-memory
ledger store (`MemStorage` in `server/storage`), the MongoDB coupon-usage
increment (`server/mongodb-storage.ts`), and the route handlers that make
up the settlement engine, coupon evaluator, and withdrawal lifecycle
(`registerRoutes` in `server/routes`).

Monetary values (`real` columns in the schema) are embedded as exact
rationals (`Rat`); JavaScript `null`/`undefined` becomes `Option`;
JavaScript truthiness tests on numeric fields are modelled as
"`none` or zero".  Storage `Map`s keyed by id become functions
`Nat -> Option _`; the coupon table, which is searched by code, and the
sales table, which is append-only, become lists.
-/

namespace Market

/-! ## Data model (shared/schema) -/

/-- `users` table: the fields the settlement core reads or writes.
`balance` is a `real` column, `planId` a nullable integer reference. -/
structure User where
  id : Nat
  balance : Rat
  planId : Option Nat
deriving Repr, DecidableEq

/-- `plans` table: the settlement core only reads `platformFeePercentage`. -/
structure Plan where
  id : Nat
  platformFeePercentage : Rat
deriving Repr, DecidableEq

/-- `products` table: fields used by settlement and coupon evaluation.
`commissionType` is the string column holding "percentage" or "fixed". -/
structure Product where
  id : Nat
  sellerId : Nat
  price : Rat
  commissionRate : Rat
  commissionType : String
deriving Repr, DecidableEq

/-- `coupons` table.  `productId`, `maxUsage` and `expiresAt` are nullable;
`expiresAt` is a timestamp, embedded as epoch milliseconds. -/
structure Coupon where
  id : Nat
  sellerId : Nat
  code : String
  type : String
  value : Rat
  productId : Option Nat
  maxUsage : Option Nat
  usageCount : Nat
  expiresAt : Option Int
deriving Repr, DecidableEq

/-- `sales` table.  The webhook always supplies `affiliateAmount`
(possibly 0), so it is embedded as a plain `Rat`. -/
structure Sale where
  id : Nat
  productId : Nat
  buyerId : Nat
  sellerId : Nat
  affiliateId : Option Nat
  amount : Rat
  sellerAmount : Rat
  affiliateAmount : Rat
  platformFee : Rat
  status : String
  paymentMethod : String
  stripePaymentIntentId : String
deriving Repr, DecidableEq

/-- `withdrawals` table. -/
structure Withdrawal where
  id : Nat
  userId : Nat
  amount : Rat
  status : String
  stripeTransferId : Option String
deriving Repr, DecidableEq

/-! ## Ledger store (MemStorage) -/

/-- The ledger store state: the `MemStorage` maps that the settlement core
touches, plus the id counters for the append-only tables it inserts into. -/
structure Store where
  users : Nat → Option User
  products : Nat → Option Product
  plans : Nat → Option Plan
  coupons : List Coupon
  withdrawals : Nat → Option Withdrawal
  sales : List Sale
  currentSaleId : Nat
  currentWithdrawalId : Nat

/-- `MemStorage.getUser`. -/
def getUser (st : Store) (id : Nat) : Option User := st.users id

/-- `MemStorage.getProduct`. -/
def getProduct (st : Store) (id : Nat) : Option Product := st.products id

/-- `MemStorage.getPlan`. -/
def getPlan (st : Store) (id : Nat) : Option Plan := st.plans id

/-- `MemStorage.getCouponByCode`: linear search over the coupon table. -/
def getCouponByCode (st : Store) (code : String) : Option Coupon :=
  st.coupons.find? (fun c => c.code == code)

/-- `MemStorage.getCoupon` by id (the `coupons.get(id)` lookup used by
`incrementCouponUsage`). -/
def getCoupon (st : Store) (id : Nat) : Option Coupon :=
  st.coupons.find? (fun c => c.id == id)

/-- The routes only ever call `MemStorage.updateUser` with a `{ balance }`
patch; this is that call: merge the new balance into the stored user,
no-op when the user does not exist. -/
def updateUserBalance (st : Store) (id : Nat) (b : Rat) : Store :=
  match st.users id with
  | none => st
  | some u =>
      { st with users := fun i => if i = id then some { u with balance := b } else st.users i }

/-- `MemStorage.createSale`: assign the next sale id and insert. -/
def createSale (st : Store) (productId buyerId sellerId : Nat) (affiliateId : Option Nat)
    (amount sellerAmount affiliateAmount platformFee : Rat)
    (status paymentMethod stripePaymentIntentId : String) : Store × Sale :=
  let sale : Sale :=
    { id := st.currentSaleId, productId, buyerId, sellerId, affiliateId,
      amount, sellerAmount, affiliateAmount, platformFee,
      status, paymentMethod, stripePaymentIntentId }
  ({ st with sales := st.sales ++ [sale], currentSaleId := st.currentSaleId + 1 }, sale)

/-- `MemStorage.createWithdrawal`: assign the next id, force status
`pending`, insert. -/
def createWithdrawal (st : Store) (userId : Nat) (amount : Rat) : Store × Withdrawal :=
  let w : Withdrawal :=
    { id := st.currentWithdrawalId, userId, amount, status := "pending", stripeTransferId := none }
  ({ st with
      withdrawals := fun i => if i = w.id then some w else st.withdrawals i,
      currentWithdrawalId := st.currentWithdrawalId + 1 }, w)

/-- `MemStorage.updateWithdrawalStatus`: overwrite the status (whatever the
current status is), and the transfer reference when a truthy one is given;
`none` when the withdrawal does not exist. -/
def updateWithdrawalStatus (st : Store) (id : Nat) (status : String)
    (stripeTransferId : Option String) : Option (Store × Withdrawal) :=
  match st.withdrawals id with
  | none => none
  | some w =>
      let w' : Withdrawal :=
        { w with
          status,
          stripeTransferId :=
            match stripeTransferId with
            | some s => if s = "" then w.stripeTransferId else some s
            | none => w.stripeTransferId }
      some ({ st with withdrawals := fun i => if i = id then some w' else st.withdrawals i }, w')

/-- `MemStorage.incrementCouponUsage`: unconditionally add 1 to
`usageCount` of the coupon with the given id; `none` only when the coupon
does not exist. -/
def incrementCouponUsage (st : Store) (id : Nat) : Store × Option Coupon :=
  match getCoupon st id with
  | none => (st, none)
  | some c =>
      let c' : Coupon := { c with usageCount := c.usageCount + 1 }
      ({ st with coupons := st.coupons.map (fun d => if d.id == id then c' else d) }, some c')

/-- `MongoDBStorage.incrementCouponUsage`: a `findOneAndUpdate` with
`$inc usageCount 1` and no further filter — the same unconditional
increment as the in-memory store, returning the post-update document. -/
def mongoIncrementCouponUsage (st : Store) (id : Nat) : Store × Option Coupon :=
  match getCoupon st id with
  | none => (st, none)
  | some c =>
      let c' : Coupon := { c with usageCount := c.usageCount + 1 }
      ({ st with coupons := st.coupons.map (fun d => if d.id == id then c' else d) }, some c')

/-! ## Coupon evaluator -/

/-- `GET /api/coupons/:code/validate`, scope check:
`coupon.productId !== null && coupon.productId !== productId`. -/
def scopeMismatch (c : Coupon) (productId : Nat) : Bool :=
  match c.productId with
  | some p => p != productId
  | none => false

/-- `GET /api/coupons/:code/validate`, usage check:
`coupon.maxUsage !== null && coupon.usageCount >= coupon.maxUsage`. -/
def usageExhausted (c : Coupon) : Bool :=
  match c.maxUsage with
  | some m => decide (m ≤ c.usageCount)
  | none => false

/-- `GET /api/coupons/:code/validate`, expiry check:
`coupon.expiresAt && new Date(coupon.expiresAt) < new Date()`. -/
def couponExpired (c : Coupon) (now : Int) : Bool :=
  match c.expiresAt with
  | some t => decide (t < now)
  | none => false

/-- The `GET /api/coupons/:code/validate` handler, after the code/productId
parse: look the coupon up by code and run the three early-return checks. -/
def validateCouponRoute (st : Store) (code : String) (productId : Nat) (now : Int) :
    Except String Coupon :=
  match getCouponByCode st code with
  | none => .error "Coupon not found"
  | some coupon =>
      if scopeMismatch coupon productId then .error "Coupon not valid for this product"
      else if usageExhausted coupon then .error "Coupon reached maximum usage"
      else if couponExpired coupon now then .error "Coupon expired"
      else .ok coupon

/-- JavaScript truthiness of a nullable numeric field: falsy when absent
or zero. -/
def jsFalsy (o : Option Nat) : Bool := o.getD 0 == 0

/-- The coupon-validity condition of `POST /api/create-payment-intent`:
`(!coupon.productId || coupon.productId === product.id) &&
 (!coupon.maxUsage || coupon.usageCount < coupon.maxUsage) &&
 (!coupon.expiresAt || new Date(coupon.expiresAt) >= new Date())`.
Unlike the validate endpoint this uses truthiness, so a zero `productId`
or `maxUsage` is treated like `null`. -/
def piCouponValid (c : Coupon) (productId : Nat) (now : Int) : Bool :=
  (jsFalsy c.productId || c.productId == some productId) &&
  (jsFalsy c.maxUsage || decide (c.usageCount < c.maxUsage.getD 0)) &&
  (c.expiresAt.isNone || decide (now ≤ c.expiresAt.getD 0))

/-- The discount application of `POST /api/create-payment-intent`:
percentage coupons set `amount = amount * (1 - value/100)` (no clamp),
fixed coupons set `amount = max(0, amount - value)`. -/
def piDiscountedAmount (c : Coupon) (amount : Rat) : Rat :=
  if c.type = "percentage" then amount * (1 - c.value / 100)
  else max 0 (amount - c.value)

/-- The amount-computation part of `POST /api/create-payment-intent`:
resolve the product, start from its price, apply the coupon if one was
supplied, found, and valid (incrementing its usage), and return the
amount that is charged. -/
def createPaymentIntentAmount (st : Store) (productId : Nat) (couponCode : Option String)
    (now : Int) : Store × Except String Rat :=
  match getProduct st productId with
  | none => (st, .error "Product not found")
  | some product =>
      match couponCode with
      | none => (st, .ok product.price)
      | some code =>
          if code = "" then (st, .ok product.price)
          else
            match getCouponByCode st code with
            | none => (st, .ok product.price)
            | some coupon =>
                if piCouponValid coupon product.id now then
                  ((incrementCouponUsage st coupon.id).1,
                    .ok (piDiscountedAmount coupon product.price))
                else (st, .ok product.price)

/-! ## Settlement engine (stripe webhook) -/

/-- The trusted `payment_intent.succeeded` event, after metadata parsing:
ids from the payment-intent metadata, the charged amount in cents, and the
payment-intent id kept as the external payment reference. -/
structure PaymentEvent where
  productId : Nat
  buyerId : Nat
  sellerId : Nat
  affiliateId : Option Nat
  amountCents : Nat
  paymentIntentId : String
deriving Repr, DecidableEq

/-- `if (affiliateId)` in the webhook: the parsed affiliate id is truthy. -/
def hasAffiliate (ev : PaymentEvent) : Bool := ev.affiliateId.getD 0 != 0

/-- `seller.planId || 1`: fall back to the free plan (id 1) when the
seller's plan id is null (or zero, which is falsy). -/
def resolvePlanId (seller : User) : Nat :=
  match seller.planId with
  | some p => if p = 0 then 1 else p
  | none => 1

/-- The webhook's raw commission:
`product.commissionType === "percentage" ? amount * (commissionRate/100)
 : commissionRate`. -/
def rawCommission (product : Product) (amount : Rat) : Rat :=
  if product.commissionType = "percentage" then amount * (product.commissionRate / 100)
  else product.commissionRate

/-- The arithmetic core of the webhook settlement: affiliate amount (raw
commission minus the fixed 4% affiliate-side fee, or 0 without an
affiliate), platform fee on the seller amount after the affiliate
deduction, and the final seller amount. -/
structure Settlement where
  affiliateAmount : Rat
  platformFee : Rat
  sellerAmount : Rat
deriving Repr, DecidableEq

/-- The amount computations of the webhook, lines 1212–1241: start with
`sellerAmount = amount`; with an affiliate, compute the raw commission,
subtract `affiliateAmount * 0.04`, and subtract the result from the
seller amount; then take the plan's platform fee from the seller amount. -/
def computeSettlement (product : Product) (feePercentage amount : Rat) (hasAff : Bool) :
    Settlement :=
  let raw := rawCommission product amount
  let affiliateAmount := if hasAff then raw - raw * (4 / 100) else 0
  let sellerAmountBeforeFee := amount - affiliateAmount
  let platformFee := sellerAmountBeforeFee * (feePercentage / 100)
  { affiliateAmount, platformFee, sellerAmount := sellerAmountBeforeFee - platformFee }

/-- The `payment_intent.succeeded` branch of `POST /api/stripe-webhook`:
resolve product, seller and plan (erroring before any mutation when one is
missing), compute the settlement amounts, credit the affiliate (reading
the affiliate record at credit time), credit the seller — from the seller
record read *before* the affiliate credit — and append the sale record.
There is no lookup of an existing sale for the payment-intent id. -/
def stripeWebhook (st : Store) (ev : PaymentEvent) : Store × Except String Sale :=
  match getProduct st ev.productId with
  | none => (st, .error "Product not found")
  | some product =>
      let amount : Rat := (ev.amountCents : Rat) / 100
      match getUser st ev.sellerId with
      | none => (st, .error "Seller not found")
      | some seller =>
          match getPlan st (resolvePlanId seller) with
          | none => (st, .error "Plan not found")
          | some plan =>
              let s := computeSettlement product plan.platformFeePercentage amount
                (hasAffiliate ev)
              let st1 :=
                if hasAffiliate ev then
                  match getUser st (ev.affiliateId.getD 0) with
                  | some affiliate =>
                      updateUserBalance st (ev.affiliateId.getD 0)
                        (affiliate.balance + s.affiliateAmount)
                  | none => st
                else st
              let st2 := updateUserBalance st1 ev.sellerId (seller.balance + s.sellerAmount)
              let r := createSale st2 ev.productId ev.buyerId ev.sellerId ev.affiliateId
                amount s.sellerAmount s.affiliateAmount s.platformFee
                "completed" "stripe" ev.paymentIntentId
              (r.1, .ok r.2)

/-! ## Withdrawal lifecycle -/

/-- `POST /api/withdrawals`: reject when the amount is falsy or below 20,
or exceeds the user's balance; otherwise create a pending withdrawal and
debit the balance.  Rejections leave the store untouched. -/
def postWithdrawal (st : Store) (userId : Nat) (amount : Rat) :
    Store × Except String Withdrawal :=
  match getUser st userId with
  | none => (st, .error "User not found")
  | some user =>
      if amount = 0 ∨ amount < 20 then (st, .error "Minimum withdrawal amount is R$20")
      else if user.balance < amount then (st, .error "Insufficient balance")
      else
        let r := createWithdrawal st userId amount
        (updateUserBalance r.1 userId (user.balance - amount), .ok r.2)

/-- `PUT /api/withdrawals/:id/status`: validate the status string, write
the new status whatever the current one is, and — when the new status is
`rejected` — credit the withdrawal's amount back to the owner's balance.
The current status of the withdrawal is never consulted. -/
def putWithdrawalStatus (st : Store) (id : Nat) (status : String)
    (stripeTransferId : Option String) : Store × Except String Withdrawal :=
  if ¬(status = "pending" ∨ status = "completed" ∨ status = "rejected") then
    (st, .error "Invalid status")
  else
    match updateWithdrawalStatus st id status stripeTransferId with
    | none => (st, .error "Withdrawal not found")
    | some (st1, w) =>
        let st2 :=
          if status = "rejected" then
            match getUser st1 w.userId with
            | some user => updateUserBalance st1 w.userId (user.balance + w.amount)
            | none => st1
          else st1
        (st2, .ok w)

/-! ## Spec-side comparators

Definitions written from the specification's words, used only to compare
the code's behaviour against the spec in refinement claims. -/

/-- Modelled from the spec: `clamp(x, lo, hi)` used in the property
"affiliateAmount == clamp(rawCommission * 0.96, 0, amount)". -/
def specClamp (x lo hi : Rat) : Rat := min (max x lo) hi

/-- Modelled from the spec: coupon validity — "coupon.productId is null OR
equals product.id", "coupon.maxUsage is null OR usageCount < maxUsage",
"coupon.expiresAt is null OR expiresAt >= now". -/
def specCouponValid (c : Coupon) (productId : Nat) (now : Int) : Bool :=
  (c.productId.isNone || c.productId == some productId) &&
  (c.maxUsage.isNone || decide (c.usageCount < c.maxUsage.getD 0)) &&
  (c.expiresAt.isNone || decide (now ≤ c.expiresAt.getD 0))

/-- Modelled from the spec: the discount — `price * value / 100` for a
percentage coupon, `value` for a fixed one. -/
def specDiscount (c : Coupon) (price : Rat) : Rat :=
  if c.type = "percentage" then price * c.value / 100 else c.value

/-- Modelled from the spec: the charged amount `max(0, price - discount)`. -/
def specCharged (c : Coupon) (price : Rat) : Rat :=
  max 0 (price - specDiscount c price)

/-! ## Concrete instances

A small populated store exercising the settlement paths, used to
instantiate the theorems on concrete inputs. -/

/-- A seller on the plan with id 2. -/
def sellerW : User := { id := 1, balance := 0, planId := some 2 }

/-- An affiliate with no plan. -/
def affiliateW : User := { id := 3, balance := 0, planId := none }

/-- A plan with a 5% platform fee. -/
def planW : Plan := { id := 2, platformFeePercentage := 5 }

/-- The spec's end-to-end example product: price 100, percentage
commission of 10. -/
def productW : Product :=
  { id := 1, sellerId := 1, price := 100, commissionRate := 10, commissionType := "percentage" }

/-- A store holding the seller, the affiliate, the plan and the product. -/
def storeW : Store :=
  { users := fun i => if i = 1 then some sellerW else if i = 3 then some affiliateW else none,
    products := fun i => if i = 1 then some productW else none,
    plans := fun i => if i = 2 then some planW else none,
    coupons := [], withdrawals := fun _ => none, sales := [],
    currentSaleId := 1, currentWithdrawalId := 1 }

/-- A trusted payment event for the product, 10000 cents, with the
affiliate present. -/
def eventW : PaymentEvent :=
  { productId := 1, buyerId := 2, sellerId := 1, affiliateId := some 3,
    amountCents := 10000, paymentIntentId := "pi_1" }

/-- The sale that settling `eventW` against `storeW` records:
85.88 + 9.6 + 4.52 = 100. -/
def saleW : Sale :=
  { id := 1, productId := 1, buyerId := 2, sellerId := 1, affiliateId := some 3,
    amount := 100, sellerAmount := 2147/25, affiliateAmount := 48/5, platformFee := 113/25,
    status := "completed", paymentMethod := "stripe", stripePaymentIntentId := "pi_1" }

/-- A product with a fixed commission of 200, larger than its price. -/
def productC3 : Product :=
  { id := 1, sellerId := 1, price := 100, commissionRate := 200, commissionType := "fixed" }

/-- `storeW` with the over-commissioned product instead. -/
def storeC3 : Store :=
  { storeW with products := fun i => if i = 1 then some productC3 else none }

/-- The sale recorded for `eventW` against `storeC3`: the affiliate amount
192 exceeds the charged amount 100, and the seller amount is negative. -/
def saleC3 : Sale :=
  { id := 1, productId := 1, buyerId := 2, sellerId := 1, affiliateId := some 3,
    amount := 100, sellerAmount := -437/5, affiliateAmount := 192, platformFee := -23/5,
    status := "completed", paymentMethod := "stripe", stripePaymentIntentId := "pi_1" }

/-- A percentage coupon of 150% with `maxUsage` 0: the zero `maxUsage` is
falsy, and the discount exceeds the price. -/
def couponC4 : Coupon :=
  { id := 1, sellerId := 1, code := "C4", type := "percentage", value := 150,
    productId := none, maxUsage := some 0, usageCount := 0, expiresAt := none }

/-- `storeW` with `couponC4` in the coupon table. -/
def storeC4 : Store := { storeW with coupons := [couponC4] }

/-- A coupon whose usage count has already reached its `maxUsage` of 1. -/
def couponC9 : Coupon :=
  { id := 1, sellerId := 1, code := "C9", type := "fixed", value := 5,
    productId := none, maxUsage := some 1, usageCount := 1, expiresAt := none }

/-- A store holding only `couponC9`. -/
def storeC9 : Store :=
  { users := fun _ => none, products := fun _ => none, plans := fun _ => none,
    coupons := [couponC9], withdrawals := fun _ => none, sales := [],
    currentSaleId := 1, currentWithdrawalId := 1 }

/-- A user with balance 100 for the withdrawal-lifecycle instances. -/
def userAlice : User := { id := 1, balance := 100, planId := none }

/-- A pending withdrawal of 50 owned by `userAlice`. -/
def withdrawalPending50 : Withdrawal :=
  { id := 1, userId := 1, amount := 50, status := "pending", stripeTransferId := none }

/-- A withdrawal of 50 that has already been rejected (and whose amount
has therefore already been credited back once). -/
def withdrawalRejected50 : Withdrawal :=
  { id := 1, userId := 1, amount := 50, status := "rejected", stripeTransferId := none }

/-- `userAlice` with her pending withdrawal. -/
def storeC7 : Store :=
  { users := fun i => if i = 1 then some userAlice else none,
    products := fun _ => none, plans := fun _ => none, coupons := [],
    withdrawals := fun i => if i = 1 then some withdrawalPending50 else none,
    sales := [], currentSaleId := 1, currentWithdrawalId := 2 }

/-- `userAlice` with her already-rejected withdrawal. -/
def storeC8 : Store :=
  { users := fun i => if i = 1 then some userAlice else none,
    products := fun _ => none, plans := fun _ => none, coupons := [],
    withdrawals := fun i => if i = 1 then some withdrawalRejected50 else none,
    sales := [], currentSaleId := 1, currentWithdrawalId := 2 }

/-- The store after the same trusted payment event `eventW` has been
processed twice. -/
def storeTwiceW : Store := (stripeWebhook (stripeWebhook storeW eventW).1 eventW).1

/-- `eventW` with the seller herself as the affiliate. -/
def eventC10 : PaymentEvent :=
  { productId := 1, buyerId := 2, sellerId := 1, affiliateId := some 1,
    amountCents := 10000, paymentIntentId := "pi_1" }

/-- The sale recorded for the self-affiliate event: it stores both the
seller amount 85.88 and the affiliate amount 9.6. -/
def saleC10 : Sale :=
  { id := 1, productId := 1, buyerId := 2, sellerId := 1, affiliateId := some 1,
    amount := 100, sellerAmount := 2147/25, affiliateAmount := 48/5, platformFee := 113/25,
    status := "completed", paymentMethod := "stripe", stripePaymentIntentId := "pi_1" }

/-! ## Helper lemmas -/

theorem getUser_updateUserBalance_self (st : Store) (id : Nat) (b : Rat) (u : User)
    (h : getUser st id = some u) :
    getUser (updateUserBalance st id b) id = some { u with balance := b } := by
  unfold getUser updateUserBalance at *
  rw [h]
  simp

theorem users_createSale (st : Store) (productId buyerId sellerId : Nat)
    (affiliateId : Option Nat) (amount sellerAmount affiliateAmount platformFee : Rat)
    (status paymentMethod stripePaymentIntentId : String) :
    (createSale st productId buyerId sellerId affiliateId amount sellerAmount
      affiliateAmount platformFee status paymentMethod stripePaymentIntentId).1.users
      = st.users := rfl

theorem stripeWebhook_storeW : (stripeWebhook storeW eventW).2 = .ok saleW := by
  simp only [stripeWebhook, storeW, eventW, getProduct, getUser, getPlan, productW, sellerW,
    affiliateW, planW, resolvePlanId, hasAffiliate, computeSettlement, rawCommission,
    createSale, updateUserBalance, saleW]
  norm_num [Sale.mk.injEq]

theorem stripeWebhook_storeW_selfAff : (stripeWebhook storeW eventC10).2 = .ok saleC10 := by
  simp only [stripeWebhook, storeW, eventC10, getProduct, getUser, getPlan, productW, sellerW,
    affiliateW, planW, resolvePlanId, hasAffiliate, computeSettlement, rawCommission,
    createSale, updateUserBalance, saleC10]
  norm_num [Sale.mk.injEq]

theorem stripeWebhook_storeC3 : (stripeWebhook storeC3 eventW).2 = .ok saleC3 := by
  simp only [stripeWebhook, storeC3, storeW, eventW, getProduct, getUser, getPlan, productC3,
    sellerW, affiliateW, planW, resolvePlanId, hasAffiliate, computeSettlement, rawCommission,
    createSale, updateUserBalance, saleC3]
  norm_num [Sale.mk.injEq]

/-! ## Claims -/

/-- C1: every sale record the `payment_intent.succeeded` webhook persists
satisfies `amount = sellerAmount + affiliateAmount + platformFee` exactly,
with `affiliateAmount = 0` when the event carries no affiliate id. -/
theorem c1_settlement_conservation (st : Store) (ev : PaymentEvent) (sale : Sale)
    (h : (stripeWebhook st ev).2 = .ok sale) :
    sale.amount = sale.sellerAmount + sale.affiliateAmount + sale.platformFee ∧
    (hasAffiliate ev = false → sale.affiliateAmount = 0) := by
  unfold stripeWebhook at h
  split at h
  · simp at h
  · split at h
    · simp at h
    · split at h
      · simp at h
      · simp only [createSale] at h
        injection h with h
        subst h
        constructor
        · simp only [computeSettlement]
          ring
        · intro hf
          rw [hf]
          simp [computeSettlement]

/-- Witness for C1 on the concrete settlement of `eventW` against `storeW`. -/
theorem c1_settlement_conservation_witness :
    saleW.amount = saleW.sellerAmount + saleW.affiliateAmount + saleW.platformFee ∧
    (hasAffiliate eventW = false → saleW.affiliateAmount = 0) :=
  c1_settlement_conservation storeW eventW saleW stripeWebhook_storeW

/-- C2: with an affiliate present, the persisted affiliate amount is the
raw commission (percentage of the charged amount, or the flat fixed rate)
times 0.96, and the platform fee is the plan's percentage of
`amount - affiliateAmount` (the seller amount before fee), never of the
gross amount. -/
theorem c2_affiliate_commission (st : Store) (ev : PaymentEvent) (sale : Sale)
    (product : Product) (seller : User) (plan : Plan)
    (h : (stripeWebhook st ev).2 = .ok sale)
    (haff : hasAffiliate ev = true)
    (hp : getProduct st ev.productId = some product)
    (hs : getUser st ev.sellerId = some seller)
    (hpl : getPlan st (resolvePlanId seller) = some plan) :
    sale.affiliateAmount = rawCommission product sale.amount * (96 / 100) ∧
    sale.platformFee = (sale.amount - sale.affiliateAmount) * (plan.platformFeePercentage / 100) ∧
    sale.sellerAmount = (sale.amount - sale.affiliateAmount) - sale.platformFee := by
  simp only [stripeWebhook, hp, hs, hpl, haff, createSale, Except.ok.injEq] at h
  subst h
  refine ⟨?_, ?_, ?_⟩
  · simp [computeSettlement, haff, rawCommission]
    split <;> ring
  · simp [computeSettlement]
  · simp [computeSettlement]

/-- Witness for C2: the spec's end-to-end example — price 100, percentage
rate 10, plan fee 5%, affiliate present, no coupon — yields
`affiliateAmount = 9.6`, `platformFee = 4.52`, `sellerAmount = 85.88`. -/
theorem c2_affiliate_commission_witness :
    (saleW.affiliateAmount = 9.6 ∧ saleW.platformFee = 4.52 ∧ saleW.sellerAmount = 85.88 ∧
      saleW.amount = 100) ∧
    (saleW.affiliateAmount = rawCommission productW saleW.amount * (96 / 100) ∧
      saleW.platformFee
        = (saleW.amount - saleW.affiliateAmount) * (planW.platformFeePercentage / 100) ∧
      saleW.sellerAmount = (saleW.amount - saleW.affiliateAmount) - saleW.platformFee) :=
  ⟨by norm_num [saleW],
    c2_affiliate_commission storeW eventW saleW productW sellerW planW
      stripeWebhook_storeW rfl rfl rfl rfl⟩

/-- C3 counterexample: settling `eventW` against `storeC3` — a fixed
commission of 200 on a price-100 product — records an affiliate amount of
192, while the claimed `clamp(rawCommission * 0.96, 0, amount)` is 100:
the webhook does not clamp, and the commission exceeds the charged
amount. -/
theorem c3_clamp_counterexample :
    (stripeWebhook storeC3 eventW).2 = .ok saleC3 ∧
    saleC3.affiliateAmount = 192 ∧
    specClamp (rawCommission productC3 saleC3.amount * (96 / 100)) 0 saleC3.amount = 100 ∧
    saleC3.affiliateAmount
      ≠ specClamp (rawCommission productC3 saleC3.amount * (96 / 100)) 0 saleC3.amount := by
  refine ⟨stripeWebhook_storeC3, rfl, ?_, ?_⟩ <;>
    norm_num [specClamp, rawCommission, productC3, saleC3]

/-- C3 amended: with an affiliate present the persisted affiliate amount
is exactly `rawCommission * 0.96`, unclamped — it can lie outside
`[0, amount]` (for a fixed commission rate above `amount / 0.96` it
exceeds the charged amount, as the witness shows). -/
theorem c3_affiliate_unclamped (st : Store) (ev : PaymentEvent) (sale : Sale)
    (product : Product) (seller : User) (plan : Plan)
    (h : (stripeWebhook st ev).2 = .ok sale)
    (haff : hasAffiliate ev = true)
    (hp : getProduct st ev.productId = some product)
    (hs : getUser st ev.sellerId = some seller)
    (hpl : getPlan st (resolvePlanId seller) = some plan) :
    sale.affiliateAmount = rawCommission product sale.amount * (96 / 100) := by
  simp only [stripeWebhook, hp, hs, hpl, haff, createSale, Except.ok.injEq] at h
  subst h
  simp [computeSettlement, haff, rawCommission]
  split <;> ring

/-- Witness for the amended C3, showing the affiliate amount exceeding the
charged amount on the `storeC3` settlement. -/
theorem c3_affiliate_unclamped_witness :
    (saleC3.affiliateAmount = rawCommission productC3 saleC3.amount * (96 / 100)) ∧
    saleC3.amount < saleC3.affiliateAmount :=
  ⟨c3_affiliate_unclamped storeC3 eventW saleC3 productC3 sellerW planW
      stripeWebhook_storeC3 rfl rfl rfl rfl,
    by norm_num [saleC3]⟩

/-- The spec-side validity predicate agrees with the three early-return
checks of the validate endpoint. -/
theorem specCouponValid_eq_checks (c : Coupon) (productId : Nat) (now : Int) :
    specCouponValid c productId now
      = (!scopeMismatch c productId && !usageExhausted c && !couponExpired c now) := by
  refine Bool.eq_iff_iff.mpr ?_
  cases hc : c.productId <;> cases hm : c.maxUsage <;> cases he : c.expiresAt <;>
    simp [specCouponValid, scopeMismatch, usageExhausted, couponExpired, hc, hm, he]

/-- Characterization of the payment-intent route's coupon check: zero ids
and zero `maxUsage` are treated like `null`. -/
theorem piCouponValid_iff (c : Coupon) (productId : Nat) (now : Int) :
    piCouponValid c productId now = true ↔
      ((c.productId = none ∨ c.productId = some 0 ∨ c.productId = some productId) ∧
       (c.maxUsage = none ∨ c.maxUsage = some 0 ∨ c.usageCount < c.maxUsage.getD 0) ∧
       (c.expiresAt = none ∨ now ≤ c.expiresAt.getD 0)) := by
  cases hc : c.productId <;> cases hm : c.maxUsage <;> cases he : c.expiresAt <;>
    simp [piCouponValid, jsFalsy, hc, hm, he] <;> omega

/-- C4 counterexample: `couponC4` (percentage 150, `maxUsage` 0,
`usageCount` 0) is invalid under the claimed validity rule
(`usageCount < maxUsage` fails), yet the payment-intent route judges it
valid and charges `100 * (1 - 150/100) = -50`, not the claimed
`max(0, price - discount) = 0`. -/
theorem c4_validity_counterexample :
    specCouponValid couponC4 1 0 = false ∧
    piCouponValid couponC4 1 0 = true ∧
    (createPaymentIntentAmount storeC4 1 (some "C4") 0).2 = .ok (-50) ∧
    specCharged couponC4 100 = 0 ∧
    productW.price = 100 := by
  refine ⟨rfl, rfl, ?_, ?_, rfl⟩
  · norm_num [createPaymentIntentAmount, storeC4, storeW, getProduct, getCouponByCode,
      getCoupon, couponC4, productW, piCouponValid, jsFalsy, piDiscountedAmount,
      incrementCouponUsage]
    rw [if_neg (show ¬("C4" = "") from by decide)]
  · norm_num [specCharged, specDiscount, couponC4, max_def]

/-- C4 amended: the validate endpoint judges validity exactly as the claim
states; the payment-intent route instead treats a zero `productId` or
`maxUsage` like `null` (JavaScript falsiness), and when its check passes
it charges `price * (1 - value/100)` for a percentage coupon — the
unclamped `price - discount` — while fixed coupons are clamped to
`max(0, price - value)`. -/
theorem c4_coupon_evaluation (st : Store) (code : String) (c : Coupon) (productId : Nat)
    (now : Int) (price : Rat)
    (h : getCouponByCode st code = some c) :
    ((validateCouponRoute st code productId now).isOk = specCouponValid c productId now) ∧
    (piCouponValid c productId now = true ↔
      ((c.productId = none ∨ c.productId = some 0 ∨ c.productId = some productId) ∧
       (c.maxUsage = none ∨ c.maxUsage = some 0 ∨ c.usageCount < c.maxUsage.getD 0) ∧
       (c.expiresAt = none ∨ now ≤ c.expiresAt.getD 0))) ∧
    (c.type = "percentage" → piDiscountedAmount c price = price - price * c.value / 100) ∧
    (c.type ≠ "percentage" → piDiscountedAmount c price = specCharged c price) := by
  refine ⟨?_, piCouponValid_iff c productId now, ?_, ?_⟩
  · rw [specCouponValid_eq_checks]
    unfold validateCouponRoute
    rw [h]
    dsimp only []
    split_ifs <;> simp_all [Except.isOk, Except.toBool]
  · intro ht
    simp only [piDiscountedAmount, ht, if_pos]
    ring
  · intro ht
    simp [piDiscountedAmount, specCharged, specDiscount, ht]

/-- Witness for the amended C4 at `couponC4` with price 100. -/
theorem c4_coupon_evaluation_witness :
    ((validateCouponRoute storeC4 "C4" 1 0).isOk = specCouponValid couponC4 1 0) ∧
    (piCouponValid couponC4 1 0 = true ↔
      ((couponC4.productId = none ∨ couponC4.productId = some 0 ∨
          couponC4.productId = some 1) ∧
       (couponC4.maxUsage = none ∨ couponC4.maxUsage = some 0 ∨
          couponC4.usageCount < couponC4.maxUsage.getD 0) ∧
       (couponC4.expiresAt = none ∨ 0 ≤ couponC4.expiresAt.getD 0))) ∧
    (couponC4.type = "percentage" →
      piDiscountedAmount couponC4 100 = 100 - 100 * couponC4.value / 100) ∧
    (couponC4.type ≠ "percentage" →
      piDiscountedAmount couponC4 100 = specCharged couponC4 100) :=
  c4_coupon_evaluation storeC4 "C4" couponC4 1 0 100 rfl

/-- C5: delivering the same `payment_intent.succeeded` event twice creates
two sale records carrying the same payment-intent id, and credits both the
seller (2 × 85.88) and the affiliate (2 × 9.6) twice — no deduplication on
the external payment reference exists. -/
theorem c5_duplicate_event_double_settles :
    storeTwiceW.sales.map Sale.stripePaymentIntentId = ["pi_1", "pi_1"] ∧
    (getUser storeTwiceW 1).map User.balance = some (4294/25) ∧
    (getUser storeTwiceW 3).map User.balance = some (96/5) := by
  norm_num [storeTwiceW, stripeWebhook, storeW, eventW, getProduct, getUser, getPlan,
    productW, sellerW, affiliateW, planW, resolvePlanId, hasAffiliate, computeSettlement,
    rawCommission, createSale, updateUserBalance]

/-- C6: a withdrawal request from an existing user succeeds exactly when
`20 ≤ amount ≤ balance`; on success a pending withdrawal for that amount
is created and the balance is debited by exactly the amount; on failure
the store — and hence the balance — is unchanged. -/
theorem c6_withdrawal_request (st : Store) (userId : Nat) (amount : Rat) (user : User)
    (hu : getUser st userId = some user) :
    ((postWithdrawal st userId amount).2.isOk = true ↔
      20 ≤ amount ∧ amount ≤ user.balance) ∧
    (∀ w, (postWithdrawal st userId amount).2 = .ok w →
      w.status = "pending" ∧ w.userId = userId ∧ w.amount = amount ∧
      (getUser (postWithdrawal st userId amount).1 userId).map User.balance
        = some (user.balance - amount)) ∧
    ((postWithdrawal st userId amount).2.isOk = false →
      (postWithdrawal st userId amount).1 = st) := by
  unfold postWithdrawal
  rw [hu]
  dsimp only []
  split_ifs with h1 h2
  · refine ⟨?_, ?_, ?_⟩
    · simp only [Except.isOk, Except.toBool, Bool.false_eq_true, false_iff]
      rintro ⟨h20, hle⟩
      rcases h1 with h0 | hlt
      · rw [h0] at h20; linarith
      · linarith
    · intro w hw
      simp at hw
    · intro _
      rfl
  · refine ⟨?_, ?_, ?_⟩
    · simp only [Except.isOk, Except.toBool, Bool.false_eq_true, false_iff]
      rintro ⟨h20, hle⟩
      linarith
    · intro w hw
      simp at hw
    · intro _
      rfl
  · push_neg at h1 h2
    refine ⟨?_, ?_, ?_⟩
    · simp only [Except.isOk, Except.toBool, true_iff]
      exact ⟨h1.2, h2⟩
    · intro w hw
      simp only [Except.ok.injEq] at hw
      subst hw
      refine ⟨rfl, rfl, rfl, ?_⟩
      have hc : getUser (createWithdrawal st userId amount).1 userId = some user := hu
      rw [getUser_updateUserBalance_self _ _ _ _ hc]
      rfl
    · simp [Except.isOk, Except.toBool]

/-- Witness for C6: Alice (balance 100) withdraws 50 — the request is
accepted and her balance drops to exactly 50. -/
theorem c6_withdrawal_request_witness :
    (20 ≤ (50 : Rat) ∧ (50 : Rat) ≤ userAlice.balance) ∧
    (postWithdrawal storeC7 1 50).2.isOk = true ∧
    (getUser (postWithdrawal storeC7 1 50).1 1).map User.balance = some 50 := by
  have h := c6_withdrawal_request storeC7 1 50 userAlice rfl
  have hcond : 20 ≤ (50 : Rat) ∧ (50 : Rat) ≤ userAlice.balance := by norm_num [userAlice]
  refine ⟨hcond, h.1.mpr hcond, ?_⟩
  have hok : (postWithdrawal storeC7 1 50).2
      = .ok { id := 2, userId := 1, amount := 50, status := "pending",
              stripeTransferId := none } := by
    norm_num [postWithdrawal, getUser, storeC7, userAlice, createWithdrawal,
      updateUserBalance]
  have hb := (h.2.1 _ hok).2.2.2
  rw [show (userAlice.balance - (50 : Rat)) = 50 from by norm_num [userAlice]] at hb
  exact hb

/-- C7: transitioning a pending withdrawal to `rejected` credits back
exactly the withdrawal's stored amount — the amount debited at request
time — to the owner's balance, and transitioning it to `completed`
touches no user balance. -/
theorem c7_withdrawal_transition (st : Store) (wid : Nat) (w : Withdrawal) (user : User)
    (tid : Option String)
    (hw : st.withdrawals wid = some w)
    (hpend : w.status = "pending")
    (hu : getUser st w.userId = some user) :
    ((getUser (putWithdrawalStatus st wid "rejected" tid).1 w.userId).map User.balance
      = some (user.balance + w.amount)) ∧
    ((putWithdrawalStatus st wid "completed" tid).1.users = st.users) := by
  constructor
  · unfold putWithdrawalStatus updateWithdrawalStatus
    rw [if_neg (by decide), hw]
    dsimp only []
    rw [if_pos rfl]
    have hu1 : getUser { st with
        withdrawals := fun i => if i = wid then some { w with
          status := "rejected",
          stripeTransferId := match tid with
            | some s => if s = "" then w.stripeTransferId else some s
            | none => w.stripeTransferId } else st.withdrawals i } w.userId = some user := hu
    rw [hu1]
    dsimp only []
    rw [getUser_updateUserBalance_self _ _ _ _ hu1]
    rfl
  · unfold putWithdrawalStatus updateWithdrawalStatus
    rw [if_neg (by decide), hw]
    dsimp only []
    rw [if_neg (by decide)]

/-- Witness for C7: rejecting Alice's pending withdrawal of 50 restores her
balance to exactly 150 = 100 + 50, while completing it leaves all balances
untouched. -/
theorem c7_withdrawal_transition_witness :
    ((getUser (putWithdrawalStatus storeC7 1 "rejected" none).1
        withdrawalPending50.userId).map User.balance
      = some (userAlice.balance + withdrawalPending50.amount)) ∧
    ((putWithdrawalStatus storeC7 1 "completed" none).1.users = storeC7.users) ∧
    userAlice.balance + withdrawalPending50.amount = 150 :=
  ⟨(c7_withdrawal_transition storeC7 1 withdrawalPending50 userAlice none rfl rfl rfl).1,
    (c7_withdrawal_transition storeC7 1 withdrawalPending50 userAlice none rfl rfl rfl).2,
    by norm_num [userAlice, withdrawalPending50]⟩

/-- C8: the status-update route consults neither the current status nor any
state machine: transitioning a withdrawal that is already `rejected` to
`rejected` again succeeds and credits its amount a second time
(Alice's balance becomes 150 although the 50 was already refunded once). -/
theorem c8_rejected_retransition :
    withdrawalRejected50.status = "rejected" ∧
    (putWithdrawalStatus storeC8 1 "rejected" none).2.isOk = true ∧
    (getUser (putWithdrawalStatus storeC8 1 "rejected" none).1 1).map User.balance
      = some 150 := by
  refine ⟨rfl, ?_, ?_⟩ <;>
  · unfold putWithdrawalStatus
    rw [if_neg (by decide)]
    norm_num [updateWithdrawalStatus, storeC8, userAlice, withdrawalRejected50, getUser,
      updateUserBalance, Except.isOk, Except.toBool]

/-- C9 counterexample: `couponC9` has `usageCount = maxUsage = 1` (the
validate route reports it exhausted), yet both storage implementations
increment it to `usageCount = 2`, exceeding `maxUsage` — the increment is
not conditional and does not fail at the ceiling. -/
theorem c9_increment_at_max :
    usageExhausted couponC9 = true ∧
    (incrementCouponUsage storeC9 1).2.map Coupon.usageCount = some 2 ∧
    (mongoIncrementCouponUsage storeC9 1).2.map Coupon.usageCount = some 2 ∧
    couponC9.maxUsage = some 1 := by decide

/-- C9 amended: `incrementCouponUsage` increments unconditionally in both
the in-memory and the MongoDB storage — it fails only when the coupon does
not exist, never because `usageCount` reached `maxUsage`; only the callers
check the ceiling before incrementing. -/
theorem c9_increment_unconditional (st : Store) (id : Nat) (c : Coupon)
    (h : getCoupon st id = some c) :
    (incrementCouponUsage st id).2 = some { c with usageCount := c.usageCount + 1 } ∧
    (mongoIncrementCouponUsage st id).2 = some { c with usageCount := c.usageCount + 1 } := by
  simp [incrementCouponUsage, mongoIncrementCouponUsage, h]

/-- Witness for the amended C9 on the exhausted coupon `couponC9`. -/
theorem c9_increment_unconditional_witness :
    (incrementCouponUsage storeC9 1).2
      = some { couponC9 with usageCount := couponC9.usageCount + 1 } ∧
    (mongoIncrementCouponUsage storeC9 1).2
      = some { couponC9 with usageCount := couponC9.usageCount + 1 } :=
  c9_increment_unconditional storeC9 1 couponC9 rfl

/-- C10: when the event's affiliate id equals the seller id, the seller
update — computed from the seller record read before the affiliate
credit — overwrites that credit: the final balance is the old balance plus
`sellerAmount` only, even though the sale stores a (generally non-zero)
`affiliateAmount` as well. -/
theorem c10_self_affiliate_credit_lost (st : Store) (ev : PaymentEvent) (sale : Sale)
    (seller : User)
    (h : (stripeWebhook st ev).2 = .ok sale)
    (hself : ev.affiliateId = some ev.sellerId)
    (haff : hasAffiliate ev = true)
    (hs : getUser st ev.sellerId = some seller) :
    (getUser (stripeWebhook st ev).1 ev.sellerId).map User.balance
      = some (seller.balance + sale.sellerAmount) := by
  have hget : ev.affiliateId.getD 0 = ev.sellerId := by rw [hself]; rfl
  have hs' : st.users ev.sellerId = some seller := hs
  rcases hp : getProduct st ev.productId with _ | product
  · simp [stripeWebhook, hp] at h
  · rcases hpl : getPlan st (resolvePlanId seller) with _ | plan
    · simp [stripeWebhook, hp, hs, hpl] at h
    · simp only [stripeWebhook, hp, hs, hpl, haff, hget, createSale, Except.ok.injEq] at h ⊢
      subst h
      simp [getUser, updateUserBalance, hs']

/-- Witness for C10: settling `eventC10` (seller 1 is also the affiliate)
leaves seller 1 with balance 85.88 — only the seller amount — although the
recorded sale carries the positive affiliate amount 9.6. -/
theorem c10_self_affiliate_credit_lost_witness :
    ((getUser (stripeWebhook storeW eventC10).1 eventC10.sellerId).map User.balance
      = some (sellerW.balance + saleC10.sellerAmount)) ∧
    0 < saleC10.affiliateAmount ∧
    sellerW.balance + saleC10.sellerAmount = 2147/25 :=
  ⟨c10_self_affiliate_credit_lost storeW eventC10 saleC10 sellerW
      stripeWebhook_storeW_selfAff rfl rfl rfl,
    by norm_num [saleC10],
    by norm_num [sellerW, saleC10]⟩

end Market
